import Mathlib

/-!
Shallow embedding of the Mazda-GUI telemetry core
(`src/elm327_gui.py`, `src/mazda_tool/core/data_manager.py`,
`src/mazda_tool/core/obd_connection.py`, `src/mazda_tool/core/ai_tuner.py`)
together with theorems settling the spec claims.

Python floats are modelled as rationals; Python dicts of decoded
parameters become a record of optional rationals (`data.get(k, 0)` is
`Option.getD`).
-/

namespace MazdaGui

/-- A live-data sample: the dict of decoded OBD-II parameters.
A missing key is `none`; `data.get(key, 0)` is `Option.getD _ 0`. -/
structure Sample where
  rpm : Option ℚ := none
  speed : Option ℚ := none
  throttle_position : Option ℚ := none
  boost_pressure : Option ℚ := none
  engine_load : Option ℚ := none
  intake_temp : Option ℚ := none
  coolant_temp : Option ℚ := none
  fuel_pressure_high : Option ℚ := none
  knock_retard : Option ℚ := none
deriving DecidableEq, Repr

/-- `MazdaAITuner._get_driving_context` (ai_tuner.py lines 238-257):
threshold classification of a sample into a driving context string.
The if-chain is translated in source order; `data.get(k, 0)` defaults
missing fields to 0. -/
def getDrivingContext (data : Sample) : String :=
  let rpm := data.rpm.getD 0
  let throttle := data.throttle_position.getD 0
  let speed := data.speed.getD 0
  let boost := data.boost_pressure.getD 0
  if speed < 30 then "city_traffic"
  else if speed > 80 ∧ throttle < 30 then "highway_cruising"
  else if throttle > 80 ∧ rpm > 4000 ∧ boost > 5 then "performance_driving"
  else if 20 ≤ throttle ∧ throttle ≤ 60 ∧ 2000 ≤ rpm ∧ rpm ≤ 3500 then "normal_cruising"
  else if throttle < 10 ∧ speed > 20 then "deceleration"
  else "transitional"

/-- One row of `MazdaDataManager.MAZDASPEED_SAFETY_LIMITS`
(data_manager.py lines 23-29). -/
structure SafetyLimits where
  warning : ℚ
  critical : ℚ
  shutdown : ℚ
deriving DecidableEq, Repr

/-- `MAZDASPEED_SAFETY_LIMITS['boost_pressure']` in PSI. -/
def boostLimits : SafetyLimits := ⟨22, 25, 28⟩

/-- `MAZDASPEED_SAFETY_LIMITS['hpfp_pressure']` in PSI. -/
def hpfpLimits : SafetyLimits := ⟨1500, 1400, 1300⟩

/-- `MAZDASPEED_SAFETY_LIMITS['knock_retard']` in degrees. -/
def knockLimits : SafetyLimits := ⟨3, 5, 8⟩

/-- The event dict assembled by `_safety_check` and completed by
`_trigger_safety_event` (data_manager.py lines 85-135): parameter, observed
value, the limit crossed, protective action tag, event type and severity.
The wall-clock timestamp is not modelled. -/
structure SafetyEvent where
  parameter : String
  value : ℚ
  limit : ℚ
  action : String
  event_type : String
  severity : String
deriving DecidableEq, Repr

/-- `MazdaDataManager._safety_check` (data_manager.py lines 85-123) applied to
the newest buffered sample: each of the three checks (boost over critical,
HPFP under critical, knock over critical) fires an event via
`_trigger_safety_event` whenever its condition holds; there is no stored
per-parameter alarm state, so the checks depend on the current sample only. -/
def safetyCheckEvents (current_data : Sample) : List SafetyEvent :=
  (match current_data.boost_pressure with
   | none => []
   | some boost =>
     if boost > boostLimits.critical then
       [⟨"boost_pressure", boost, boostLimits.critical, "reduce_boost", "overboost", "critical"⟩]
     else []) ++
  (match current_data.fuel_pressure_high with
   | none => []
   | some hpfp =>
     if hpfp < hpfpLimits.critical then
       [⟨"fuel_pressure_high", hpfp, hpfpLimits.critical, "emergency_rich_afr", "hpfp_failure", "critical"⟩]
     else []) ++
  (match current_data.knock_retard with
   | none => []
   | some knock =>
     if knock > knockLimits.critical then
       [⟨"knock_retard", knock, knockLimits.critical, "reduce_timing_boost", "excessive_knock", "critical"⟩]
     else [])

/-- The safety monitor is a 10 Hz timer reading the newest buffered sample;
over a stream of delivered samples it performs one `_safety_check` per
sample, concatenating the emitted events in order. -/
def runSafetyMonitor (stream : List Sample) : List SafetyEvent :=
  (stream.map safetyCheckEvents).flatten

/-- Number of overboost events emitted over a stream. -/
def overboostCount (stream : List Sample) : ℕ :=
  ((runSafetyMonitor stream).filter (fun e => e.event_type = "overboost")).length

/-- A sample whose boost pressure holds at 26 PSI. -/
def sampleBoost26 : Sample := { boost_pressure := some 26 }

/-- Python `int(c, 16)` on a single character: value of a hex digit,
`none` when the character is not a hex digit (the call raises).
Code points: 48-57 are digits, 97-102 lowercase a-f, 65-70 uppercase A-F. -/
def hexVal (c : Char) : Option ℕ :=
  let n := c.toNat
  if 48 ≤ n ∧ n ≤ 57 then some (n - 48)
  else if 97 ≤ n ∧ n ≤ 102 then some (n - 97 + 10)
  else if 65 ≤ n ∧ n ≤ 70 then some (n - 65 + 10)
  else none

/-- Accumulator loop of Python `int(s, 16)` over the characters of `s`. -/
def hexNatAux : List Char → ℕ → Option ℕ
  | [], acc => some acc
  | c :: t, acc =>
    match hexVal c with
    | some v => hexNatAux t (16 * acc + v)
    | none => none

/-- Python `int(s, 16)` on a string of hex digits; `none` on the empty
string or any non-hex character (the call raises). -/
def hexNat (l : List Char) : Option ℕ :=
  match l with
  | [] => none
  | _ => hexNatAux l 0

/-- Characters stripped by Python `str.strip()` (the whitespace relevant to
adapter responses). -/
def isWsChar (c : Char) : Bool :=
  c == ' ' || c == '\t' || c == '\n' || c == '\r'

/-- Python `str.strip()`: drop whitespace from both ends. -/
def stripEnds (l : List Char) : List Char :=
  ((l.dropWhile isWsChar).reverse.dropWhile isWsChar).reverse

/-- `response.replace(' ', '').replace('>', '').strip()` as used by
`parse_obd_response` and `parse_dtc_codes` (elm327_gui.py lines 165, 220). -/
def cleanResp (l : List Char) : List Char :=
  stripEnds (l.filter (fun c => !(c == ' ' || c == '>')))

/-- The `dtc_prefix` if-chain of `ELM327Interface.hex_to_dtc`
(elm327_gui.py lines 238-256): first nibble 0-3 maps to P, 4-7 to C,
8-11 to B, 12-15 to U, each with its code-space digit; any other value
leaves the empty default. -/
def dtcHeadChars (first_char : ℕ) : List Char :=
  if first_char = 0 then ['P', '0']
  else if first_char = 1 then ['P', '1']
  else if first_char = 2 then ['P', '2']
  else if first_char = 3 then ['P', '3']
  else if first_char = 4 then ['C', '0']
  else if first_char = 5 then ['C', '1']
  else if first_char = 6 then ['C', '2']
  else if first_char = 7 then ['C', '3']
  else if first_char = 8 then ['B', '0']
  else if first_char = 9 then ['B', '1']
  else if first_char = 10 then ['B', '2']
  else if first_char = 11 then ['B', '3']
  else if first_char = 12 then ['U', '0']
  else if first_char = 13 then ['U', '1']
  else if first_char = 14 then ['U', '2']
  else if first_char = 15 then ['U', '3']
  else []

/-- `ELM327Interface.hex_to_dtc` (elm327_gui.py lines 233-258): a group of
exactly 4 hex characters becomes the category head for its first nibble
followed by the remaining 3 characters verbatim; other lengths give `None`,
and a non-hex first character raises (modelled as `none`). -/
def hex_to_dtc : List Char → Option String
  | [c0, c1, c2, c3] =>
    match hexVal c0 with
    | some first_char => some (String.mk (dtcHeadChars first_char ++ [c1, c2, c3]))
    | none => none
  | _ => none

/-- Re-encoding of a DTC string, following the spec words for the round-trip:
the category letter recovers the high two bits of the first nibble
(P to 0, C to 4, B to 8, U to 12), the code-space digit (0-3) its low two
bits, and the remaining characters are the digits verbatim. -/
def reencodeDtc (dtc : String) : Option (ℕ × List Char) :=
  match dtc.data with
  | letter :: d :: rest =>
    let base :=
      if letter = 'P' then some 0
      else if letter = 'C' then some 4
      else if letter = 'B' then some 8
      else if letter = 'U' then some 12
      else none
    match base, hexVal d with
    | some b, some dv => if dv < 4 then some (b + dv, rest) else none
    | _, _ => none
  | _ => none

/-- The chunking loop of `ELM327Interface.parse_dtc_codes`
(elm327_gui.py lines 223-228): consume 4-character groups while at least 4
characters remain; a shorter trailing group is skipped. A raising group
(non-hex first character) aborts the loop, returning the codes collected so
far, matching the enclosing `except` which returns the partial list. -/
def dtcChunks : List Char → List String
  | c0 :: c1 :: c2 :: c3 :: rest =>
    match hex_to_dtc [c0, c1, c2, c3] with
    | some dtc => dtc :: dtcChunks rest
    | none => []
  | _ => []

/-- `ELM327Interface.parse_dtc_codes` (elm327_gui.py lines 216-231): clean
the response, require the Mode-03 marker 43 at the front, then decode the
4-character groups of the remainder. -/
def parse_dtc_codes (response : List Char) : List String :=
  let clean := cleanResp response
  if clean.take 2 = ['4', '3'] then dtcChunks (clean.drop 2) else []

/-- The decode formulas of `Mazdaspeed3PIDs.PID_DEFINITIONS`
(elm327_gui.py lines 58-68), keyed by PID; `none` for a PID absent from the
table. -/
def pidFormula (pid : String) (x : ℕ) : Option ℚ :=
  if pid = "0104" then some ((x : ℚ) * 100 / 255)
  else if pid = "0105" then some ((x : ℚ) - 40)
  else if pid = "010C" then some ((x : ℚ) / 4)
  else if pid = "010D" then some ((x : ℚ))
  else if pid = "010B" then some ((x : ℚ))
  else if pid = "010F" then some ((x : ℚ) - 40)
  else if pid = "0111" then some ((x : ℚ) * 100 / 255)
  else if pid = "0110" then some ((x : ℚ) / 100)
  else if pid = "010E" then some ((x : ℚ) / 2 - 64)
  else none

/-- `ELM327Interface.parse_obd_response` (elm327_gui.py lines 162-179):
strip spaces and the prompt terminator, require at least 8 characters of
payload, take characters 6 to 10 as the data field, parse them as hex and
apply the PID formula; every failing path returns `None`. -/
def parse_obd_response (response : List Char) (pid : String) : Option ℚ :=
  let clean := cleanResp response
  if 8 ≤ clean.length then
    match hexNat ((clean.drop 6).take 4) with
    | some hex_value => pidFormula pid hex_value
    | none => none
  else none

/-- Python `str.split('\n')`. -/
def splitNl (l : List Char) : List (List Char) :=
  l.splitOn '\n'

/-- Accumulator for Python no-argument `str.split()`: whitespace runs
separate tokens and produce no empty tokens. -/
def splitTokensAux : List Char → List Char → List (List Char)
  | [], cur => if cur = [] then [] else [cur.reverse]
  | c :: t, cur =>
    if isWsChar c then
      if cur = [] then splitTokensAux t []
      else cur.reverse :: splitTokensAux t []
    else splitTokensAux t (c :: cur)

/-- Python no-argument `str.split()`. -/
def splitTokens (l : List Char) : List (List Char) :=
  splitTokensAux l []

/-- Substring test, Python `needle in hay` on strings. -/
def containsSub (needle : List Char) : List Char → Bool
  | [] => needle.isEmpty
  | c :: t => needle.isPrefixOf (c :: t) || containsSub needle t

/-- The line loop of `AdvancedOBD2Bluetooth._get_coolant_temp`
(obd_connection.py lines 284-292): find a line containing the 41 05 marker
whose stripped token list has at least 3 entries and decode token 2 as
hex minus 40; a non-hex token raises, which the enclosing handler turns
into `None` for the whole call. -/
def coolantLineLoop : List (List Char) → Option ℚ
  | [] => none
  | line :: rest =>
    if containsSub ['4', '1', ' ', '0', '5'] line then
      let data := splitTokens (stripEnds line)
      if 3 ≤ data.length then
        match hexNat (data.getD 2 []) with
        | some v => some ((v : ℚ) - 40)
        | none => none
      else coolantLineLoop rest
    else coolantLineLoop rest

/-- `AdvancedOBD2Bluetooth._get_coolant_temp` (obd_connection.py lines
281-294) applied to an already-received raw response: `None` responses and
responses without the 41 05 marker decode to nothing, otherwise the line
loop runs. -/
def getCoolantTemp (response : Option (List Char)) : Option ℚ :=
  match response with
  | none => none
  | some resp =>
    if containsSub ['4', '1', ' ', '0', '5'] resp then coolantLineLoop (splitNl resp)
    else none

end MazdaGui

namespace MazdaGui

/-- `analysis_thresholds` of `MazdaAITuner.__init__` (ai_tuner.py lines
56-64): aggressive throttle 80 %, high rpm 5000, performance rpm 4000,
efficient band 1500-3000 rpm, boost threshold 10 PSI, minimum sample
count 50. -/
structure AnalysisThresholds where
  aggressive_throttle : ℚ
  high_rpm : ℚ
  performance_rpm : ℚ
  efficient_rpm_min : ℚ
  efficient_rpm_max : ℚ
  boost_threshold : ℚ
  sample_size_min : ℕ
deriving DecidableEq, Repr

/-- The Mazdaspeed-3-optimised threshold values. -/
def analysisThresholds : AnalysisThresholds :=
  ⟨80, 5000, 4000, 1500, 3000, 10, 50⟩

/-- Aggression scoring of one data point inside
`MazdaAITuner._analyze_driving_patterns` (ai_tuner.py lines 307-313):
one point each for throttle above the aggressive threshold, rpm above the
high-rpm threshold, and boost above the boost threshold. -/
def aggressionPoints (s : Sample) : ℕ :=
  (if s.throttle_position.getD 0 > analysisThresholds.aggressive_throttle then 1 else 0) +
  (if s.rpm.getD 0 > analysisThresholds.high_rpm then 1 else 0) +
  (if s.boost_pressure.getD 0 > analysisThresholds.boost_threshold then 1 else 0)

/-- Efficiency scoring of one data point (ai_tuner.py lines 315-321):
one point each for rpm inside the efficient band, throttle below 50, and a
stored driving context of highway_cruising or normal_cruising (the context
is computed from the same data at ingestion time). -/
def efficiencyPoints (s : Sample) : ℕ :=
  (if analysisThresholds.efficient_rpm_min ≤ s.rpm.getD 0 ∧
      s.rpm.getD 0 ≤ analysisThresholds.efficient_rpm_max then 1 else 0) +
  (if s.throttle_position.getD 0 < 50 then 1 else 0) +
  (if getDrivingContext s = "highway_cruising" ∨ getDrivingContext s = "normal_cruising"
   then 1 else 0)

/-- `self.driving_data[-200:]`: the recent window used by
`_analyze_driving_patterns` (ai_tuner.py line 284). -/
def recentWindow (l : List Sample) : List Sample :=
  l.drop (l.length - 200)

/-- Total aggression metric over the recent window. -/
def aggressionSum (l : List Sample) : ℕ :=
  ((recentWindow l).map aggressionPoints).sum

/-- Total efficiency metric over the recent window. -/
def efficiencySum (l : List Sample) : ℕ :=
  ((recentWindow l).map efficiencyPoints).sum

/-- The fields of the analysis dict returned by
`_analyze_driving_patterns` that drive recommendations: the two scores,
each normalized by total points times 3, and the number of points
analyzed. The rpm/throttle/context distribution entries are reported only
in free-text output and are not modelled. -/
structure DrivingAnalysis where
  aggression_level : ℚ
  efficiency_score : ℚ
  data_points_analyzed : ℕ
deriving DecidableEq, Repr

/-- `MazdaAITuner._analyze_driving_patterns` (ai_tuner.py lines 279-336):
empty data yields the empty dict (modelled as `none`); otherwise the last
200 points are scored and each metric is divided by `total_points * 3`. -/
def analyzeDrivingPatterns (l : List Sample) : Option DrivingAnalysis :=
  if l = [] then none
  else
    some { aggression_level := (aggressionSum l : ℚ) / ((recentWindow l).length * 3),
           efficiency_score := (efficiencySum l : ℚ) / ((recentWindow l).length * 3),
           data_points_analyzed := (recentWindow l).length }

/-- `TuningAdjustment` (ai_tuner.py lines 23-32) without the free-text
reasoning field. -/
structure TuningAdjustment where
  parameter : String
  current_value : ℚ
  recommended_value : ℚ
  confidence : ℚ
  urgency : String
  category : String
deriving DecidableEq, Repr

/-- `MazdaAITuner._create_performance_adjustment` (ai_tuner.py lines
415-446): load_targeting_midrange from 1.8 to 2.1 + (aggression - 0.7) * 0.5,
confidence min(0.9, aggression), urgency soon, category performance. -/
def createPerformanceAdjustment (analysis : DrivingAnalysis) : TuningAdjustment :=
  { parameter := "load_targeting_midrange",
    current_value := 18 / 10,
    recommended_value := 21 / 10 + (analysis.aggression_level - 7 / 10) * (5 / 10),
    confidence := min (9 / 10) analysis.aggression_level,
    urgency := "soon",
    category := "performance" }

/-- `MazdaAITuner._create_efficiency_adjustment` (ai_tuner.py lines
448-479): cruise_afr_target from 14.7 to 15.0, confidence
min(0.85, efficiency), urgency optional, category efficiency. -/
def createEfficiencyAdjustment (analysis : DrivingAnalysis) : TuningAdjustment :=
  { parameter := "cruise_afr_target",
    current_value := 147 / 10,
    recommended_value := 15,
    confidence := min (85 / 100) analysis.efficiency_score,
    urgency := "optional",
    category := "efficiency" }

/-- `MazdaAITuner._create_balanced_adjustment` (ai_tuner.py lines 481-510):
throttle_response_map from 0 to 0.8, confidence 0.75, urgency optional,
category driveability. -/
def createBalancedAdjustment (_analysis : DrivingAnalysis) : TuningAdjustment :=
  { parameter := "throttle_response_map",
    current_value := 0,
    recommended_value := 8 / 10,
    confidence := 75 / 100,
    urgency := "optional",
    category := "driveability" }

/-- `MazdaAITuner._create_adaptive_adjustment` (ai_tuner.py lines 512-541):
vvt_optimization_midrange from 0 to 0.6, confidence 0.7, urgency optional,
category adaptation. -/
def createAdaptiveAdjustment (_analysis : DrivingAnalysis) : TuningAdjustment :=
  { parameter := "vvt_optimization_midrange",
    current_value := 0,
    recommended_value := 6 / 10,
    confidence := 7 / 10,
    urgency := "optional",
    category := "adaptation" }

/-- The branch chain of `MazdaAITuner._generate_tuning_recommendation`
(ai_tuner.py lines 269-277): aggression above 0.7 first, then efficiency
above 0.7, then both above 0.6, else the adaptive fallback. -/
def selectAdjustment (analysis : DrivingAnalysis) : TuningAdjustment :=
  if analysis.aggression_level > 7 / 10 then createPerformanceAdjustment analysis
  else if analysis.efficiency_score > 7 / 10 then createEfficiencyAdjustment analysis
  else if analysis.aggression_level > 6 / 10 ∧ analysis.efficiency_score > 6 / 10 then
    createBalancedAdjustment analysis
  else createAdaptiveAdjustment analysis

/-- `MazdaAITuner._generate_tuning_recommendation` (ai_tuner.py lines
259-277): `None` below the minimum sample count, otherwise the adjustment
selected from the pattern analysis. -/
def generateTuningRecommendation (driving_data : List Sample) : Option TuningAdjustment :=
  if driving_data.length < analysisThresholds.sample_size_min then none
  else (analyzeDrivingPatterns driving_data).map selectAdjustment

/-- The retention step of `MazdaAITuner.process_driving_data`
(ai_tuner.py lines 203-207): append the new data point, then keep only the
last 3600 points when the list has grown beyond 3600. -/
def processStep (driving_data : List Sample) (s : Sample) : List Sample :=
  let appended := driving_data ++ [s]
  if appended.length > 3600 then appended.drop (appended.length - 3600) else appended

/-- A window of sixty samples at throttle 90 and rpm 6000 with no boost
field (so boost defaults to 0). -/
def dataSixty : List Sample :=
  List.replicate 60 { rpm := some 6000, throttle_position := some 90 }

/-- A sample at throttle 90, rpm 6000 and boost 12. -/
def samplePerf : Sample :=
  { rpm := some 6000, throttle_position := some 90, boost_pressure := some 12 }

/-- `ELM327Interface.clear_dtcs` (elm327_gui.py lines 260-263): True
exactly when a response was received and contains OK. -/
def clear_dtcs (response : Option (List Char)) : Bool :=
  match response with
  | none => false
  | some r => containsSub ['O', 'K'] r

/-- `AdvancedOBD2Bluetooth.clear_diagnostic_codes` (obd_connection.py lines
346-362): False when not connected; otherwise True exactly when a response
was received and contains the Mode-04 acknowledgement 44. -/
def clearDiagnosticCodes (connected : Bool) (response : Option (List Char)) : Bool :=
  if !connected then false
  else
    match response with
    | none => false
    | some r => containsSub ['4', '4'] r

/-- The connection-session state touched by one poll cycle: the connected
flag of `AdvancedOBD2Bluetooth` and the live-data buffer of
`MazdaDataManager` (a deque with maxlen 500). These are the only
representations of connection status and buffered samples in the source;
there is no failure counter. -/
structure PollState where
  connected : Bool
  buffer : List Sample
deriving DecidableEq, Repr

/-- The per-cycle decode results of `collect_real_live_data`
(obd_connection.py lines 121-161): each parameter is `none` when its
request or parse failed. -/
structure DecodeResults where
  rpm : Option ℚ := none
  speed : Option ℚ := none
  engine_load : Option ℚ := none
  throttle_position : Option ℚ := none
  intake_temp : Option ℚ := none
  coolant_temp : Option ℚ := none
deriving DecidableEq, Repr

/-- The live_data dict assembled by `collect_real_live_data`: only
successfully decoded parameters are present. -/
def buildLiveData (d : DecodeResults) : Sample :=
  { rpm := d.rpm, speed := d.speed, engine_load := d.engine_load,
    throttle_position := d.throttle_position, intake_temp := d.intake_temp,
    coolant_temp := d.coolant_temp }

/-- True when every decode of the cycle failed, so the live_data dict is
empty and falsy. -/
def allDecodesFailed (d : DecodeResults) : Bool :=
  d.rpm.isNone && d.speed.isNone && d.engine_load.isNone &&
  d.throttle_position.isNone && d.intake_temp.isNone && d.coolant_temp.isNone

/-- `MazdaDataManager.update_live_data` (data_manager.py lines 65-83)
reached with a non-empty dict: append to the 500-deep ring buffer and emit
to subscribers. The `_validate_data` / `_apply_smoothing` /
`_should_sample_for_ai` helpers it names are not defined anywhere in the
source; the buffered path models them as pass-through. -/
def updateLiveData (st : PollState) (s : Sample) : PollState × List Sample :=
  let appended := st.buffer ++ [s]
  ({ st with buffer := appended.drop (appended.length - 500) }, [s])

/-- One cycle of `AdvancedOBD2Bluetooth.collect_real_live_data`
(obd_connection.py lines 121-161): nothing happens unless connected; the
data manager is invoked only when at least one parameter decoded
(`if live_data:`), so a cycle with zero decodes changes nothing and
publishes nothing. The returned list is what was published to
subscribers. -/
def collectRealLiveData (st : PollState) (d : DecodeResults) : PollState × List Sample :=
  if !st.connected then (st, [])
  else if allDecodesFailed d then (st, [])
  else updateLiveData st (buildLiveData d)

/-- A poll cycle in which every parameter failed to decode. -/
def failedCycle : DecodeResults := {}

/-- Three consecutive completely-failed poll cycles applied to a connected
session with an empty buffer. -/
def afterThreeFailedPolls : PollState :=
  (collectRealLiveData
    (collectRealLiveData
      (collectRealLiveData ⟨true, []⟩ failedCycle).1 failedCycle).1 failedCycle).1

/-- C10: whenever the speed field (defaulting to 0 when missing) is below 30,
the driving-context classifier returns city_traffic regardless of throttle,
rpm and boost, and in particular never performance_driving. -/
theorem speed_below_thirty_city_traffic (s : Sample) (h : s.speed.getD 0 < 30) :
    getDrivingContext s = "city_traffic" ∧ getDrivingContext s ≠ "performance_driving" := by
  have hctx : getDrivingContext s = "city_traffic" := by
    unfold getDrivingContext
    simp only [if_pos h]
  exact ⟨hctx, by simp [hctx]⟩

/-- C10 witness: a sample with throttle 90, rpm 5000, boost 8 and speed 20 is
classified city_traffic, not performance_driving. -/
theorem speed_below_thirty_witness :
    getDrivingContext ⟨some 5000, some 20, some 90, some 8, none, none, none, none, none⟩ = "city_traffic" ∧
    getDrivingContext ⟨some 5000, some 20, some 90, some 8, none, none, none, none, none⟩ ≠ "performance_driving" :=
  speed_below_thirty_city_traffic
    ⟨some 5000, some 20, some 90, some 8, none, none, none, none, none⟩ (by norm_num)

/-- Helper: a sample with boost 26 contributes exactly one overboost event to
the safety check output, and any overboost event it emits carries the
reduce_boost action. -/
theorem safetyCheck_boost26 (s : Sample) (hs : s.boost_pressure = some 26) :
    ((safetyCheckEvents s).filter (fun e => e.event_type = "overboost")).length = 1 ∧
    ∀ e ∈ safetyCheckEvents s, e.event_type = "overboost" → e.action = "reduce_boost" := by
  unfold safetyCheckEvents
  rw [hs]
  cases hf : s.fuel_pressure_high <;> cases hk : s.knock_retard <;>
    simp [boostLimits, hpfpLimits, knockLimits] <;> split_ifs <;>
    simp_all <;>
    first
      | linarith
      | (rintro a (⟨hlt, rfl⟩ | rfl) hov <;> simp_all)

/-- C1 counterexample: a stream of two samples holding boost steady at 26 PSI
(critical threshold 25) makes the safety monitor emit two overboost events,
one per sample, not exactly one. -/
theorem overboost_not_once_on_steady_stream :
    overboostCount [sampleBoost26, sampleBoost26] = 2 ∧ (2 : ℕ) ≠ 1 := by
  constructor
  · decide
  · decide

/-- C1 amended: for every stream of samples whose boost pressure holds at
26 PSI, the safety monitor (which keeps no per-parameter alarm state) emits
exactly one overboost event per delivered sample, each carrying the
protective action reduce_boost. -/
theorem overboost_event_per_sample_above_critical (stream : List Sample)
    (h : ∀ s ∈ stream, s.boost_pressure = some 26) :
    overboostCount stream = stream.length ∧
    ∀ e ∈ runSafetyMonitor stream, e.event_type = "overboost" → e.action = "reduce_boost" := by
  induction stream with
  | nil => simp [overboostCount, runSafetyMonitor]
  | cons s t ih =>
    have hs : s.boost_pressure = some 26 := h s (by simp)
    have ht : ∀ x ∈ t, x.boost_pressure = some 26 := fun x hx => h x (by simp [hx])
    obtain ⟨ih1, ih2⟩ := ih ht
    obtain ⟨h1, h2⟩ := safetyCheck_boost26 s hs
    have hrun : runSafetyMonitor (s :: t) = safetyCheckEvents s ++ runSafetyMonitor t := by
      simp [runSafetyMonitor]
    constructor
    · have : overboostCount (s :: t) =
          ((safetyCheckEvents s).filter (fun e => e.event_type = "overboost")).length +
          overboostCount t := by
        simp [overboostCount, hrun, List.filter_append]
      rw [this, h1, ih1]
      simp [Nat.add_comm]
    · intro e he hty
      rw [hrun] at he
      rcases List.mem_append.mp he with hmem | hmem
      · exact h2 e hmem hty
      · exact ih2 e hmem hty

/-- C1 witness: a one-sample stream at boost 26 yields exactly one overboost
event. -/
theorem overboost_event_per_sample_witness :
    overboostCount [sampleBoost26] = 1 :=
  (overboost_event_per_sample_above_critical [sampleBoost26] (by decide)).1


/-- Helper: a hex digit value is below 16. -/
theorem hexVal_lt (c : Char) (n : ℕ) (h : hexVal c = some n) : n < 16 := by
  simp only [hexVal] at h
  split_ifs at h <;> simp_all <;> omega

/-- C2: for every 4-hex-digit DTC body (first character any hex digit of
value n, remaining three characters verbatim), hex_to_dtc produces a code
string whose re-encoding recovers the same category nibble n and the same
three digits; this covers all 65536 nibble combinations. -/
theorem hex_dtc_roundtrip (c0 c1 c2 c3 : Char) (n : ℕ) (h : hexVal c0 = some n) :
    ∃ d, hex_to_dtc [c0, c1, c2, c3] = some d ∧ reencodeDtc d = some (n, [c1, c2, c3]) := by
  have hn : n < 16 := hexVal_lt c0 n h
  refine ⟨String.mk (dtcHeadChars n ++ [c1, c2, c3]), by simp [hex_to_dtc, h], ?_⟩
  interval_cases n <;> simp [reencodeDtc, dtcHeadChars, hexVal]

/-- C2 witness: the body 0123 round-trips through P0123 back to nibble 0
and digits 123. -/
theorem hex_dtc_roundtrip_witness :
    ∃ d, hex_to_dtc ['0', '1', '2', '3'] = some d ∧
      reencodeDtc d = some (0, ['1', '2', '3']) :=
  hex_dtc_roundtrip '0' '1' '2' '3' 0 (by decide)

/-- Helper: a group of fewer than 4 characters decodes to nothing. -/
theorem dtcChunks_short (t : List Char) (h : t.length < 4) : dtcChunks t = [] := by
  rcases t with _ | ⟨a, _ | ⟨b, _ | ⟨c, _ | ⟨d, r⟩⟩⟩⟩
  · rfl
  · rfl
  · rfl
  · rfl
  · exact absurd h (by simp only [List.length_cons]; omega)

/-- C4: parsing the Mode-03 response 43 01 23 45 67 yields exactly
[P0123, C0567], and for any response body made of complete 4-character
groups followed by a short trailing group, the short group is skipped while
the complete groups decode as without it. -/
theorem dtc_scenario_and_short_group_skip :
    parse_dtc_codes ("43 01 23 45 67".data) = ["P0123", "C0567"] ∧
    ∀ (gs : List (List Char)) (t : List Char),
      (∀ g ∈ gs, g.length = 4) → t.length < 4 →
      dtcChunks (gs.flatten ++ t) = dtcChunks gs.flatten := by
  refine ⟨by decide, ?_⟩
  intro gs t hg ht
  induction gs with
  | nil =>
    simp only [List.flatten_nil, List.nil_append]
    rw [dtcChunks_short t ht]
    rfl
  | cons g rest ih =>
    have hgl : g.length = 4 := hg g (by simp)
    have hrest : ∀ x ∈ rest, x.length = 4 := fun x hx => hg x (by simp [hx])
    obtain ⟨a, b, c, d, rfl⟩ : ∃ a b c d, g = [a, b, c, d] := by
      rcases g with _ | ⟨a, _ | ⟨b, _ | ⟨c, _ | ⟨d, _ | ⟨e, r⟩⟩⟩⟩⟩ <;>
        first
          | exact ⟨_, _, _, _, rfl⟩
          | simp_all
    simp only [List.flatten_cons, List.append_assoc, List.cons_append, List.nil_append]
    cases hx : hex_to_dtc [a, b, c, d] with
    | none => simp [dtcChunks, hx]
    | some dtc =>
      simp only [dtcChunks, hx]
      rw [ih hrest]

/-- C4 witness: a trailing 3-character group after one complete group is
skipped and the complete group still decodes. -/
theorem dtc_short_group_witness :
    dtcChunks ([['0', '1', '2', '3']].flatten ++ ['4', '5', '6']) =
      dtcChunks [['0', '1', '2', '3']].flatten :=
  dtc_scenario_and_short_group_skip.2 [['0', '1', '2', '3']] ['4', '5', '6']
    (by decide) (by decide)

/-- C5 counterexample: the whitespace-stripping decoder requiring 8
characters of payload (parse_obd_response) fails on the raw response
41 05 5A for the coolant PID 0105 - the stripped payload has only 6
characters - so it does not return 50. -/
theorem coolant_scenario_strict_decoder_fails :
    parse_obd_response ("41 05 5A".data) "0105" = none ∧
    (none : Option ℚ) ≠ some 50 := by
  exact ⟨by decide, by decide⟩

/-- C5 amended: the per-line coolant decoder of the connection module
returns 0x5A - 40 = 50 on the raw response 41 05 5A, while the
8-character-minimum stripping decoder returns no value on it. -/
theorem coolant_scenario_line_decoder :
    getCoolantTemp (some ("41 05 5A".data)) = some 50 ∧
    parse_obd_response ("41 05 5A".data) "0105" = none := by
  have hstep : getCoolantTemp (some ("41 05 5A".data)) = some (((90 : ℕ) : ℚ) - 40) := rfl
  have hq : ((90 : ℕ) : ℚ) - 40 = 50 := by norm_num
  exact ⟨by rw [hstep, hq], by decide⟩


/-- Helper: mapping a function bounded by b and summing is bounded by
b times the length. -/
theorem sumMapLe (f : Sample → ℕ) (b : ℕ) (l : List Sample)
    (h : ∀ s ∈ l, f s ≤ b) : (l.map f).sum ≤ b * l.length := by
  induction l with
  | nil => simp
  | cons x t ih =>
    simp only [List.map_cons, List.sum_cons, List.length_cons]
    have hx := h x (by simp)
    have ht := ih (fun s hs => h s (by simp [hs]))
    calc f x + (t.map f).sum ≤ b + b * t.length := Nat.add_le_add hx ht
    _ = b * (t.length + 1) := by ring

/-- Helper: mapping a function constantly equal to b and summing gives
b times the length. -/
theorem sumMapConst (f : Sample → ℕ) (b : ℕ) (l : List Sample)
    (h : ∀ s ∈ l, f s = b) : (l.map f).sum = b * l.length := by
  induction l with
  | nil => simp
  | cons x t ih =>
    simp only [List.map_cons, List.sum_cons, List.length_cons]
    rw [h x (by simp), ih (fun s hs => h s (by simp [hs]))]
    ring

/-- Helper: each data point contributes at most 3 aggression points. -/
theorem aggressionPoints_le (s : Sample) : aggressionPoints s ≤ 3 := by
  unfold aggressionPoints
  split_ifs <;> omega

/-- Helper: the recent analysis window of a non-empty list is non-empty. -/
theorem recentWindow_pos (l : List Sample) (h : l ≠ []) :
    0 < (recentWindow l).length := by
  have hl : 0 < l.length := List.length_pos.mpr h
  simp only [recentWindow, List.length_drop]
  omega

/-- C3: the recommendation selection is a strict priority chain -
aggression above 0.7 gives a performance adjustment with confidence capped
at 0.9; else efficiency above 0.7 gives an efficiency adjustment capped at
0.85; else both above 0.6 gives the driveability adjustment; else the
adaptive adjustment at confidence 0.7 - and below 50 analyzed data points
no recommendation is produced. -/
theorem recommendation_priority_and_confidence :
    (∀ a : DrivingAnalysis,
      (a.aggression_level > 7 / 10 →
        (selectAdjustment a).category = "performance" ∧
        (selectAdjustment a).confidence ≤ 9 / 10) ∧
      (¬ a.aggression_level > 7 / 10 → a.efficiency_score > 7 / 10 →
        (selectAdjustment a).category = "efficiency" ∧
        (selectAdjustment a).confidence ≤ 85 / 100) ∧
      (¬ a.aggression_level > 7 / 10 → ¬ a.efficiency_score > 7 / 10 →
        a.aggression_level > 6 / 10 ∧ a.efficiency_score > 6 / 10 →
        (selectAdjustment a).category = "driveability") ∧
      (¬ a.aggression_level > 7 / 10 → ¬ a.efficiency_score > 7 / 10 →
        ¬ (a.aggression_level > 6 / 10 ∧ a.efficiency_score > 6 / 10) →
        (selectAdjustment a).category = "adaptation" ∧
        (selectAdjustment a).confidence = 7 / 10)) ∧
    (∀ l : List Sample, l.length < 50 → generateTuningRecommendation l = none) := by
  constructor
  · intro a
    refine ⟨?_, ?_, ?_, ?_⟩
    · intro h
      simp [selectAdjustment, if_pos h, createPerformanceAdjustment, min_le_left]
    · intro h1 h2
      simp [selectAdjustment, if_neg h1, if_pos h2, createEfficiencyAdjustment, min_le_left]
    · intro h1 h2 h3
      simp [selectAdjustment, if_neg h1, if_neg h2, if_pos h3, createBalancedAdjustment]
    · intro h1 h2 h3
      simp [selectAdjustment, if_neg h1, if_neg h2, if_neg h3, createAdaptiveAdjustment]
  · intro l hl
    have : l.length < analysisThresholds.sample_size_min := hl
    simp [generateTuningRecommendation, if_pos this]

/-- C3 witness: an analysis with aggression 0.8 selects the performance
category with confidence at most 0.9. -/
theorem recommendation_priority_witness :
    (selectAdjustment ⟨4 / 5, 0, 60⟩).category = "performance" ∧
    (selectAdjustment ⟨4 / 5, 0, 60⟩).confidence ≤ 9 / 10 :=
  (recommendation_priority_and_confidence.1 ⟨4 / 5, 0, 60⟩).1 (by norm_num)

/-- C6 counterexample: sixty consecutive samples with throttle 90 (above
80 %) and rpm 6000 (above 5000) but without boost above the 10 PSI
threshold score aggression 2/3, which is not above 0.7, and the
recommendation produced is the adaptive one, not a performance one. -/
theorem aggression_sixty_samples_not_above_point_seven :
    (analyzeDrivingPatterns dataSixty).map (fun a => a.aggression_level) = some (2 / 3) ∧
    ¬ ((2 : ℚ) / 3 > 7 / 10) ∧
    (generateTuningRecommendation dataSixty).map (fun adj => adj.category) = some "adaptation" := by
  have hne : dataSixty ≠ [] := by simp [dataSixty]
  have hagg : aggressionSum dataSixty = 120 := by decide
  have heff : efficiencySum dataSixty = 0 := by decide
  have hlen : (recentWindow dataSixty).length = 60 := by decide
  have h1 : analyzeDrivingPatterns dataSixty = some ⟨2 / 3, 0, 60⟩ := by
    unfold analyzeDrivingPatterns
    rw [if_neg hne]
    simp only [Option.some.injEq, DrivingAnalysis.mk.injEq]
    refine ⟨?_, ?_, hlen⟩
    · rw [hagg, hlen]; norm_num
    · rw [heff, hlen]; norm_num
  refine ⟨by rw [h1]; norm_num, by norm_num, ?_⟩
  unfold generateTuningRecommendation
  rw [if_neg (by simp [dataSixty, analysisThresholds]), h1]
  simp only [Option.map_some']
  rw [show selectAdjustment ⟨2 / 3, 0, 60⟩ = createAdaptiveAdjustment ⟨2 / 3, 0, 60⟩ from ?_]
  · rfl
  · unfold selectAdjustment
    rw [if_neg (by norm_num), if_neg (by norm_num), if_neg (by norm_num)]

/-- C6 amended: a window of 60 consecutive samples in which every sample
has throttle above 80 %, rpm above 5000 and boost above the 10 PSI
aggression threshold scores aggression 1 (above 0.7) and the
recommendation engine returns a performance-category adjustment. -/
theorem aggression_with_boost_gives_performance (w : List Sample)
    (hlen : w.length = 60)
    (hall : ∀ s ∈ w, s.throttle_position.getD 0 > 80 ∧ s.rpm.getD 0 > 5000 ∧
      s.boost_pressure.getD 0 > 10) :
    ∃ a, analyzeDrivingPatterns w = some a ∧ a.aggression_level = 1 ∧
      a.aggression_level > 7 / 10 ∧
      (generateTuningRecommendation w).map (fun adj => adj.category) = some "performance" := by
  have hne : w ≠ [] := by
    intro hcon
    rw [hcon] at hlen
    simp at hlen
  have hrw : recentWindow w = w := by
    unfold recentWindow
    rw [hlen]
    norm_num
  have hlenr : (recentWindow w).length = 60 := by rw [hrw, hlen]
  have hpts : ∀ s ∈ w, aggressionPoints s = 3 := by
    intro s hs
    obtain ⟨h1, h2, h3⟩ := hall s hs
    simp [aggressionPoints, analysisThresholds] at h1 h2 h3 ⊢
    rw [if_pos h1, if_pos h2, if_pos h3]
  have hsum : aggressionSum w = 180 := by
    unfold aggressionSum
    rw [hrw, sumMapConst aggressionPoints 3 w hpts, hlen]
  have haggq : (aggressionSum w : ℚ) / ((recentWindow w).length * 3) = 1 := by
    rw [hsum, hlenr]; norm_num
  refine ⟨⟨1, (efficiencySum w : ℚ) / ((recentWindow w).length * 3), 60⟩, ?_, rfl, by norm_num, ?_⟩
  · unfold analyzeDrivingPatterns
    rw [if_neg hne]
    simp only [Option.some.injEq, DrivingAnalysis.mk.injEq]
    exact ⟨haggq, trivial, hlenr⟩
  · unfold generateTuningRecommendation
    rw [if_neg (by simp [hlen, analysisThresholds])]
    have h1 : analyzeDrivingPatterns w =
        some ⟨1, (efficiencySum w : ℚ) / ((recentWindow w).length * 3), 60⟩ := by
      unfold analyzeDrivingPatterns
      rw [if_neg hne]
      simp only [Option.some.injEq, DrivingAnalysis.mk.injEq]
      exact ⟨haggq, trivial, hlenr⟩
    rw [h1]
    simp only [Option.map_some']
    unfold selectAdjustment
    rw [if_pos (by norm_num)]
    rfl

/-- C6 witness: sixty samples at throttle 90, rpm 6000 and boost 12 yield
aggression 1 and a performance recommendation. -/
theorem aggression_with_boost_witness :
    ∃ a, analyzeDrivingPatterns (List.replicate 60 samplePerf) = some a ∧
      a.aggression_level = 1 ∧ a.aggression_level > 7 / 10 ∧
      (generateTuningRecommendation (List.replicate 60 samplePerf)).map
        (fun adj => adj.category) = some "performance" :=
  aggression_with_boost_gives_performance (List.replicate 60 samplePerf)
    (by simp) (by decide)

/-- Helper: one retention step never leaves more than 3600 entries. -/
theorem processStep_le (acc : List Sample) (s : Sample) :
    (processStep acc s).length ≤ 3600 := by
  simp only [processStep]
  split_ifs with h
  · simp only [List.length_drop]
    omega
  · omega

/-- C7: after any number of ingestion steps starting from the empty list
the stored window never exceeds the configured capacity of 3600 points,
and every analysis the pattern analyzer produces has an aggression level
inside the interval from 0 to 1. -/
theorem window_capacity_and_aggression_bounds :
    (∀ samples : List Sample, (samples.foldl processStep []).length ≤ 3600) ∧
    (∀ (l : List Sample) (a : DrivingAnalysis), analyzeDrivingPatterns l = some a →
      0 ≤ a.aggression_level ∧ a.aggression_level ≤ 1) := by
  constructor
  · have key : ∀ (L init : List Sample), init.length ≤ 3600 →
        (L.foldl processStep init).length ≤ 3600 := by
      intro L
      induction L with
      | nil => intro init h; simpa using h
      | cons x t ih =>
        intro init _
        exact ih (processStep init x) (processStep_le init x)
    intro samples
    exact key samples [] (by simp)
  · intro l a ha
    unfold analyzeDrivingPatterns at ha
    split_ifs at ha with hl
    obtain rfl := (Option.some.inj ha).symm
    have hpos : 0 < (recentWindow l).length := recentWindow_pos l hl
    have hq : (0 : ℚ) < ((recentWindow l).length : ℚ) * 3 := by
      have hcast : (0 : ℚ) < ((recentWindow l).length : ℚ) := by exact_mod_cast hpos
      linarith
    constructor
    · exact div_nonneg (Nat.cast_nonneg _) (le_of_lt hq)
    · rw [div_le_one hq]
      have hnat : aggressionSum l ≤ 3 * (recentWindow l).length :=
        sumMapLe aggressionPoints 3 (recentWindow l)
          (fun s _ => aggressionPoints_le s)
      calc (aggressionSum l : ℚ) ≤ ((3 * (recentWindow l).length : ℕ) : ℚ) := by
            exact_mod_cast hnat
      _ = ((recentWindow l).length : ℚ) * 3 := by push_cast; ring

/-- C7 witness: the single-sample window is within capacity and its
analysis has aggression inside the unit interval. -/
theorem window_capacity_witness :
    0 ≤ ((aggressionSum [sampleBoost26] : ℚ) /
        ((recentWindow [sampleBoost26]).length * 3)) ∧
    ((aggressionSum [sampleBoost26] : ℚ) /
        ((recentWindow [sampleBoost26]).length * 3)) ≤ 1 :=
  window_capacity_and_aggression_bounds.2 [sampleBoost26]
    ⟨(aggressionSum [sampleBoost26] : ℚ) / ((recentWindow [sampleBoost26]).length * 3),
     (efficiencySum [sampleBoost26] : ℚ) / ((recentWindow [sampleBoost26]).length * 3),
     (recentWindow [sampleBoost26]).length⟩ rfl

/-- Helper: the substring scan agrees with the infix relation. -/
theorem containsSub_iff (needle hay : List Char) :
    containsSub needle hay = true ↔ needle <:+: hay := by
  induction hay with
  | nil => simp [containsSub, List.infix_nil, List.isEmpty_iff]
  | cons c t ih =>
    simp only [containsSub, Bool.or_eq_true, List.isPrefixOf_iff_prefix, ih,
      List.infix_cons_iff]

/-- C8: DTC clearing reports success exactly when a raw response exists and
contains the positive-acknowledgement marker - OK for the serial
interface's Mode-04 path, 44 for the Bluetooth connection (which also
requires the session to be connected); every marker-less or absent
response reports failure. -/
theorem clear_dtcs_iff_marker :
    (∀ response : Option (List Char), clear_dtcs response = true ↔
      ∃ r, response = some r ∧ ['O', 'K'] <:+: r) ∧
    (∀ (connected : Bool) (response : Option (List Char)),
      clearDiagnosticCodes connected response = true ↔
      (connected = true ∧ ∃ r, response = some r ∧ ['4', '4'] <:+: r)) := by
  constructor
  · intro response
    cases response with
    | none => simp [clear_dtcs]
    | some r => simp [clear_dtcs, containsSub_iff]
  · intro connected response
    cases connected <;> cases response <;>
      simp [clearDiagnosticCodes, containsSub_iff]

/-- C9 counterexample: three consecutive poll cycles in which every
parameter fails to decode leave the session state exactly as it was - the
connected flag is still true and nothing was buffered; no poll-failure
count exists and no status value called Degraded exists in the source, so
the status is not degraded. -/
theorem three_failed_polls_leave_state_unchanged :
    afterThreeFailedPolls = ⟨true, []⟩ ∧ afterThreeFailedPolls.connected = true := by
  exact ⟨rfl, rfl⟩

/-- C9 amended: a poll cycle in which zero parameters decode successfully
buffers nothing, publishes nothing, and leaves the connection state
unchanged. -/
theorem empty_poll_drops_sample (st : PollState) (d : DecodeResults)
    (h : allDecodesFailed d = true) :
    collectRealLiveData st d = (st, []) := by
  unfold collectRealLiveData
  cases hc : st.connected <;> simp [hc, h]

/-- C9 witness: the all-failed cycle applied to a fresh connected session
changes nothing and publishes nothing. -/
theorem empty_poll_drops_sample_witness :
    collectRealLiveData ⟨true, []⟩ failedCycle = (⟨true, []⟩, ([] : List Sample)) :=
  empty_poll_drops_sample ⟨true, []⟩ failedCycle (by decide)

end MazdaGui
